import Mathlib

/-!
# Verification of the idempotent branch-file upsert workflow

Shallow embedding of `src/github.py` (class `GitHubBranchManager`) and of the
Lambda handler embedded in `src/instance-schedular.py`, together with proofs
of the specified properties.

Modelling conventions for `github.py`:

* The remote GitHub host is modelled as the state of the single repository all
  calls address (`Remote`): an association list of branch refs
  (branch name ↦ head commit sha) and an association list of file revisions
  ((branch, path) ↦ revision).  `repo.get_repo(repo_name)` is modelled as
  always succeeding: the repository under discussion exists, and `repo_name`
  is threaded through purely as data (it only influences the returned URL).
* Each remote API call either returns a value or raises; a raised exception is
  an `Option.none` / failure branch in the embedding.  The `except:` clauses
  of the Python code become the corresponding `none` branches.
* Methods are state transformers returning the new remote state, the list of
  attempted remote *mutation* calls (the trace, used to count create/update
  attempts), and the Python return value.
* A file's revision token (its git blob sha) is modelled as an injective tag
  of the stored content, matching the spec's description of the token as a
  content hash.
* The Python dict `json_data` is abstracted as its serialized text
  `json_content` (the result of `json.dumps(json_data, indent=2)`); the
  workflow treats the content as opaque, and no claim inspects the serialized
  form.  The base64/utf-8 transport encoding of line 93-94 is embedded
  executably.
-/

set_option linter.unusedVariables false

/-- A stored file revision: content (as transmitted) plus its identifying
revision token (blob sha). -/
structure FileRev where
  content : String
  sha : String
deriving Repr, DecidableEq

/-- State of the one repository the calls address: branch refs
(name ↦ head commit sha) and files ((branch, path) ↦ revision). -/
structure Remote where
  refs : List (String × String)
  files : List ((String × String) × FileRev)
deriving Repr, DecidableEq

/-- An attempted remote mutation call (the trace records attempts, whether or
not the host accepts them). -/
inductive Op where
  | createRef (name sha : String)
  | createFile (branch path : String)
  | updateFile (branch path sha : String)
deriving Repr, DecidableEq

/-- `repo.get_git_ref(f"heads/{name}")`: resolve a branch ref to its head
commit sha; `none` models the raised exception when the ref is absent. -/
def get_git_ref (st : Remote) (name : String) : Option String :=
  (st.refs.find? (fun p => p.1 == name)).map Prod.snd

/-- `repo.create_git_ref(ref=f"refs/heads/{name}", sha=sha)`: the host rejects
creation of a ref that already exists (`none` models the raised exception);
otherwise the new ref is appended. -/
def create_git_ref (st : Remote) (name sha : String) : Option Remote :=
  if (get_git_ref st name).isSome then none
  else some { st with refs := st.refs ++ [(name, sha)] }

/-- `repo.get_contents(file_path, ref=branch_name)`: current revision of
`path` on `branch`; `none` models the raised exception when absent. -/
def get_contents (st : Remote) (path branch : String) : Option FileRev :=
  (st.files.find? (fun e => e.1.1 == branch && e.1.2 == path)).map Prod.snd

/-- Revision token of stored content, modelled as an injective tag of the
content (the spec describes the token as a content hash). -/
def blobSha (content : String) : String :=
  "blob:" ++ content

/-- Replace the revision stored for `(branch, path)`. -/
def setFile (files : List ((String × String) × FileRev)) (branch path : String)
    (rev : FileRev) : List ((String × String) × FileRev) :=
  files.map (fun e => if e.1.1 == branch && e.1.2 == path then (e.1, rev) else e)

/-- `repo.update_file(path, message, content, sha, branch)`: the host requires
the presented revision token to match the current one (optimistic
concurrency); `none` models the raised exception on a missing file or a stale
token. -/
def update_file (st : Remote) (path message content sha branch : String) :
    Option Remote :=
  match get_contents st path branch with
  | none => none
  | some rev =>
    if rev.sha == sha then
      some { st with files := setFile st.files branch path ⟨content, blobSha content⟩ }
    else none

/-- `repo.create_file(path, message, content, branch)`: the host rejects a
create on a missing branch or over an existing file (`none` models the raised
exception); otherwise the new revision is appended. -/
def create_file (st : Remote) (path message content branch : String) :
    Option Remote :=
  if (get_git_ref st branch).isNone then none
  else if (get_contents st path branch).isSome then none
  else some { st with files := st.files ++ [((branch, path), ⟨content, blobSha content⟩)] }

/-- The padded base64 alphabet encoding of a byte list (bytes given as `Nat`
values below 256), as performed by Python's `base64.b64encode`. -/
def b64Char (n : Nat) : Char :=
  "ABCDEFGHIJKLMNOPQRSTUVWXYZabcdefghijklmnopqrstuvwxyz0123456789+/".toList.getD n 'A'

/-- Encode a byte list in base64 (three bytes to four alphabet characters,
with `=` padding). -/
def b64encodeBytes : List Nat → List Char
  | [] => []
  | [a] => [b64Char (a / 4), b64Char (a % 4 * 16), '=', '=']
  | [a, b] => [b64Char (a / 4), b64Char (a % 4 * 16 + b / 16), b64Char (b % 16 * 4), '=']
  | a :: b :: c :: rest =>
    b64Char (a / 4) :: b64Char (a % 4 * 16 + b / 16) ::
      b64Char (b % 16 * 4 + c / 64) :: b64Char (c % 64) :: b64encodeBytes rest

/-- Lines 93-94 of `github.py`:
`base64.b64encode(json_content.encode("utf-8")).decode("utf-8")`. -/
def b64encode (s : String) : String :=
  String.mk (b64encodeBytes (s.toUTF8.toList.map (fun b => b.toNat)))

/-- `GitHubBranchManager.create_branch` (src/github.py lines 36-69),
generalised by a fault flag for the target-branch lookup of line 58: when
`targetLookupFault` is true that lookup raises even though the ref may exist
(the bare `except:` of line 60 then routes control to ref creation).  The
un-faulted behaviour is `create_branch` below.

Returns (new remote state, attempted mutations, Python boolean result). -/
def create_branch_aux (st : Remote) (repo_name branch_name base_branch : String)
    (targetLookupFault : Bool) : Remote × List Op × Bool :=
  match get_git_ref st base_branch with
  | none => (st, [], false)
  | some base_sha =>
    if targetLookupFault || (get_git_ref st branch_name).isNone then
      match create_git_ref st branch_name base_sha with
      | some st' => (st', [Op.createRef branch_name base_sha], true)
      | none => (st, [Op.createRef branch_name base_sha], false)
    else
      (st, [], true)

/-- `GitHubBranchManager.create_branch` under the deterministic remote
semantics: the target-branch lookup of line 58 raises exactly when the ref is
absent. -/
def create_branch (st : Remote) (repo_name branch_name base_branch : String) :
    Remote × List Op × Bool :=
  create_branch_aux st repo_name branch_name base_branch false

/-- The browsable URL built at line 119 of `github.py`. -/
def file_url (repo_name branch_name file_path : String) : String :=
  "https://github.com/" ++ repo_name ++ "/blob/" ++ branch_name ++ "/" ++ file_path

/-- `GitHubBranchManager.upload_json_file` (src/github.py lines 71-124).
`json_content` is the serialized text of the Python dict `json_data`
(`json.dumps(json_data, indent=2)`, line 90).  The inner `try` of lines
97-116 covers both `get_contents` and `update_file`: a raised update also
falls through to the create branch of the bare `except:`.

Returns (new remote state, attempted mutations, Python return value: the file
URL on success, `none` for the outer `except` of lines 122-124). -/
def upload_json_file (st : Remote)
    (repo_name branch_name file_path json_content commit_message : String) :
    Remote × List Op × Option String :=
  let encoded_content := b64encode json_content
  match get_contents st file_path branch_name with
  | some existing_file =>
    match update_file st file_path commit_message encoded_content
        existing_file.sha branch_name with
    | some st' =>
      (st', [Op.updateFile branch_name file_path existing_file.sha],
        some (file_url repo_name branch_name file_path))
    | none =>
      match create_file st file_path commit_message encoded_content branch_name with
      | some st' =>
        (st', [Op.updateFile branch_name file_path existing_file.sha,
          Op.createFile branch_name file_path],
          some (file_url repo_name branch_name file_path))
      | none =>
        (st, [Op.updateFile branch_name file_path existing_file.sha,
          Op.createFile branch_name file_path], none)
  | none =>
    match create_file st file_path commit_message encoded_content branch_name with
    | some st' =>
      (st', [Op.createFile branch_name file_path],
        some (file_url repo_name branch_name file_path))
    | none =>
      (st, [Op.createFile branch_name file_path], none)

/-- `GitHubBranchManager.create_branch_and_upload_json` (src/github.py lines
126-146): ensure the branch, and only on success upload the file. -/
def create_branch_and_upload_json (st : Remote)
    (repo_name branch_name base_branch file_path json_content commit_message : String) :
    Remote × List Op × Option String :=
  let r1 := create_branch st repo_name branch_name base_branch
  if r1.2.2 then
    let r2 := upload_json_file r1.1 repo_name branch_name file_path
      json_content commit_message
    (r2.1, r1.2.1 ++ r2.2.1, r2.2.2)
  else
    (r1.1, r1.2.1, none)

/-- Python truthiness of an optional string (`None` and `""` are falsy). -/
def truthy : Option String → Bool
  | none => false
  | some s => !(s == "")

/-- Python `a or b` on optional strings, as at line 28 of `github.py`. -/
def pyOr (a b : Option String) : Option String :=
  if truthy a then a else b

/-- `GitHubBranchManager.__init__` (src/github.py lines 19-34): the stored
token is `token or os.environ.get("GITHUB_TOKEN")`, and a falsy result raises
`ValueError`.  `env_github_token` is the value of the `GITHUB_TOKEN`
environment variable (`none` when unset).  Returns the stored credential or
the raised error message. -/
def manager_init (token env_github_token : Option String) : Except String String :=
  let t := pyOr token env_github_token
  if truthy t then
    Except.ok (t.getD "")
  else
    Except.error "GitHub token is required. Provide it as a parameter or set GITHUB_TOKEN environment variable."

/-- Number of ref-creation attempts in a trace. -/
def countRefCreates (ops : List Op) : Nat :=
  (ops.filter (fun o => match o with | Op.createRef _ _ => true | _ => false)).length

/-- Number of file-creation attempts in a trace. -/
def countFileCreates (ops : List Op) : Nat :=
  (ops.filter (fun o => match o with | Op.createFile _ _ => true | _ => false)).length

/-- Number of file-update attempts in a trace. -/
def countFileUpdates (ops : List Op) : Nat :=
  (ops.filter (fun o => match o with | Op.updateFile _ _ _ => true | _ => false)).length

/-!
## The Lambda handler embedded in `src/instance-schedular.py`

The `ZipFile` literal of the CloudFormation template (lines 123-332) defines
`lambda_handler`, a dispatch over `event['apiPath']` to four operation
functions that call AWS APIs.  Those four functions are opaque to this
development (their results depend on remote AWS state), so `lambda_handler`
is parameterised over them; each returns the JSON-serialisable result that the
handler then serialises into the response body.  The dispatch itself and the
response shape are embedded from the source.
-/

/-- A Bedrock agent invocation event, with the fields `lambda_handler` reads:
`event.get('actionGroup', '')`, `event.get('apiPath', '')`,
`event.get('parameters', [])` and `event.get('httpMethod', 'POST')`.  Each
parameter is a name/value pair. -/
structure LambdaEvent where
  actionGroup : String
  apiPath : String
  httpMethod : Option String
  parameters : List (String × String)
deriving Repr, DecidableEq

/-- The response dict returned by `lambda_handler`; `body` is the
`json.dumps(result)` string stored under
`responseBody['application/json']['body']`. -/
structure LambdaResponse where
  actionGroup : String
  apiPath : String
  httpMethod : String
  httpStatusCode : Nat
  body : String
deriving Repr, DecidableEq

/-- JSON string quoting as performed by `json.dumps` (quote and backslash
escaped; the strings at issue contain no control characters). -/
def jsonQuote (s : String) : String :=
  "\"" ++ String.join (s.toList.map (fun ch =>
    if ch == '"' then "\\\"" else if ch == '\\' then "\\\\"
    else String.singleton ch)) ++ "\""

/-- `json.dumps({"error": msg})`. -/
def jsonErrorBody (msg : String) : String :=
  "\x7b\"error\": " ++ jsonQuote msg ++ "\x7d"

/-- `lambda_handler` from the `ZipFile` literal (lines 135-182 of
`src/instance-schedular.py`): dispatch on `apiPath` to the four operation
functions (passed as parameters, each consuming the name/value parameter list
and producing the serialised result body), with the catch-all branch for an
unknown path; the response always carries `httpStatusCode` 200 (500 appears
only in the `except` branch for a raised exception, and the four operation
functions catch their own exceptions and return error dicts instead of
raising). -/
def lambda_handler
    (update_rds_schedule get_rds_schedule list_rds_instances create_schedule :
      List (String × String) → String)
    (event : LambdaEvent) : LambdaResponse :=
  let params := event.parameters
  let result :=
    if event.apiPath == "/update-rds-schedule" then update_rds_schedule params
    else if event.apiPath == "/get-rds-schedule" then get_rds_schedule params
    else if event.apiPath == "/list-rds-instances" then list_rds_instances params
    else if event.apiPath == "/create-schedule" then create_schedule params
    else jsonErrorBody ("Unknown API path: " ++ event.apiPath)
  { actionGroup := event.actionGroup
    apiPath := event.apiPath
    httpMethod := event.httpMethod.getD "POST"
    httpStatusCode := 200
    body := result }

/-!
## Helper lemmas
-/

/-- `find?` on an appended list returns what it found on the left part. -/
theorem find?_append_left {α : Type} {l₁ : List α} (l₂ : List α) {p : α → Bool}
    {a : α} (h : l₁.find? p = some a) : (l₁ ++ l₂).find? p = some a := by
  induction l₁ with
  | nil => simp [List.find?] at h
  | cons x xs ih =>
    rw [List.cons_append]
    cases hx : p x with
    | true =>
      rw [List.find?_cons_of_pos _ hx] at h ⊢
      exact h
    | false =>
      rw [List.find?_cons_of_neg _ (by simp [hx])] at h ⊢
      exact ih h

/-- `find?` on an appended list falls through to the right part when the left
part has no match. -/
theorem find?_append_right {α : Type} {l₁ : List α} (l₂ : List α) {p : α → Bool}
    (h : l₁.find? p = none) : (l₁ ++ l₂).find? p = l₂.find? p := by
  induction l₁ with
  | nil => simp
  | cons x xs ih =>
    rw [List.cons_append]
    cases hx : p x with
    | true => rw [List.find?_cons_of_pos _ hx] at h; exact absurd h (by simp)
    | false =>
      rw [List.find?_cons_of_neg _ (by simp [hx])] at h ⊢
      exact ih h

/-- A ref visible before a ref append is still visible, at the same sha. -/
theorem get_git_ref_append {st : Remote} {n s : String} (e : String × String)
    (h : get_git_ref st n = some s) :
    get_git_ref { st with refs := st.refs ++ [e] } n = some s := by
  unfold get_git_ref at h ⊢
  cases hf : st.refs.find? (fun p => p.1 == n) with
  | none => rw [hf] at h; simp at h
  | some q =>
    rw [hf] at h
    rw [find?_append_left [e] hf]
    exact h

/-- The result value of `upload_json_file`, characterised: the URL whenever
the file already exists (update path succeeds with the token just read) or
the branch exists (create path succeeds), `none` otherwise. -/
theorem upload_json_file_result (st : Remote)
    (repo_name branch_name file_path json_content commit_message : String) :
    (upload_json_file st repo_name branch_name file_path json_content commit_message).2.2
      = if (get_contents st file_path branch_name).isSome
          ∨ (get_git_ref st branch_name).isSome
        then some (file_url repo_name branch_name file_path)
        else none := by
  unfold upload_json_file
  cases hc : get_contents st file_path branch_name with
  | some rev =>
    simp [update_file, hc]
  | none =>
    simp only [create_file, hc, Option.isSome_none, Bool.false_eq_true, false_or]
    cases hb : get_git_ref st branch_name with
    | some sha => simp [hb]
    | none => simp [hb]

/-!
## Claims
-/

/-- C1: every call to `upload_json_file` attempts exactly one of the two
remote mutations, never both: one update and zero creates when the file
exists at `file_path` on `branch_name` beforehand, one create and zero
updates when it does not. -/
theorem upload_json_file_exactly_one_mutation (st : Remote)
    (repo_name branch_name file_path json_content commit_message : String) :
    countFileUpdates
        (upload_json_file st repo_name branch_name file_path json_content commit_message).2.1
      = (if (get_contents st file_path branch_name).isSome then 1 else 0) ∧
    countFileCreates
        (upload_json_file st repo_name branch_name file_path json_content commit_message).2.1
      = (if (get_contents st file_path branch_name).isSome then 0 else 1) := by
  unfold upload_json_file
  cases hc : get_contents st file_path branch_name with
  | some rev =>
    simp [update_file, hc, countFileUpdates, countFileCreates]
  | none =>
    cases hf : create_file st file_path commit_message (b64encode json_content) branch_name with
    | some st' => simp [hc, hf, countFileUpdates, countFileCreates]
    | none => simp [hc, hf, countFileUpdates, countFileCreates]

/-- C2: when `create_branch` reports failure, the orchestrator
`create_branch_and_upload_json` returns `none` and performs nothing beyond
what `create_branch` did: its final state and mutation trace are exactly
those of the `create_branch` call, so `upload_json_file` is never invoked. -/
theorem create_branch_and_upload_json_fail_fast (st : Remote)
    (repo_name branch_name base_branch file_path json_content commit_message : String)
    (h : (create_branch st repo_name branch_name base_branch).2.2 = false) :
    create_branch_and_upload_json st repo_name branch_name base_branch file_path
        json_content commit_message
      = ((create_branch st repo_name branch_name base_branch).1,
         (create_branch st repo_name branch_name base_branch).2.1, none) := by
  simp [create_branch_and_upload_json, h]

/-- Witness for C2 at a state with no branches: ensuring a branch off the
missing base `main` fails, and the orchestrator returns the failure with no
upload attempted. -/
theorem create_branch_and_upload_json_fail_fast_witness :
    (create_branch ⟨[], []⟩ "acme/widgets" "feature-x" "main").2.2 = false ∧
    create_branch_and_upload_json ⟨[], []⟩ "acme/widgets" "feature-x" "main"
        "config/settings.json" "data" "msg"
      = ((create_branch ⟨[], []⟩ "acme/widgets" "feature-x" "main").1,
         (create_branch ⟨[], []⟩ "acme/widgets" "feature-x" "main").2.1, none) :=
  ⟨by decide, create_branch_and_upload_json_fail_fast ⟨[], []⟩ "acme/widgets"
    "feature-x" "main" "config/settings.json" "data" "msg" (by decide)⟩

/-- C3: `create_branch` is idempotent whenever the base branch resolves: both
calls return `True`, the second call changes nothing and attempts no
mutation (the already-exists no-op path), and at most one ref-creation is
attempted in total. -/
theorem create_branch_idempotent (st : Remote)
    (repo_name branch_name base_branch : String)
    (h : (get_git_ref st base_branch).isSome) :
    (create_branch st repo_name branch_name base_branch).2.2 = true ∧
    (create_branch (create_branch st repo_name branch_name base_branch).1
        repo_name branch_name base_branch).2.2 = true ∧
    (create_branch (create_branch st repo_name branch_name base_branch).1
        repo_name branch_name base_branch).1
      = (create_branch st repo_name branch_name base_branch).1 ∧
    (create_branch (create_branch st repo_name branch_name base_branch).1
        repo_name branch_name base_branch).2.1 = [] ∧
    countRefCreates ((create_branch st repo_name branch_name base_branch).2.1
        ++ (create_branch (create_branch st repo_name branch_name base_branch).1
              repo_name branch_name base_branch).2.1) ≤ 1 := by
  obtain ⟨s, hs⟩ := Option.isSome_iff_exists.mp h
  unfold create_branch create_branch_aux
  cases ht : get_git_ref st branch_name with
  | some sha => simp [hs, ht, countRefCreates]
  | none =>
    have hcr : create_git_ref st branch_name s
        = some { st with refs := st.refs ++ [(branch_name, s)] } := by
      simp [create_git_ref, ht]
    have hs' : get_git_ref { st with refs := st.refs ++ [(branch_name, s)] } base_branch
        = some s := get_git_ref_append (branch_name, s) hs
    have ht' : get_git_ref { st with refs := st.refs ++ [(branch_name, s)] } branch_name
        = some s := by
      unfold get_git_ref at ht ⊢
      cases hf : st.refs.find? (fun p => p.1 == branch_name) with
      | some q => rw [hf] at ht; simp at ht
      | none =>
        rw [find?_append_right [(branch_name, s)] hf]
        simp [List.find?]
    simp [hs, ht, hcr, hs', ht', countRefCreates]

/-- Witness for C3 at a one-branch state: base `main` resolves; ensuring
`feature-x` twice succeeds twice, the second call is a no-op, and at most one
ref creation is attempted. -/
theorem create_branch_idempotent_witness :
    (get_git_ref ⟨[("main", "abc123")], []⟩ "main").isSome = true ∧
    ((create_branch ⟨[("main", "abc123")], []⟩ "r" "feature-x" "main").2.2 = true ∧
     (create_branch (create_branch ⟨[("main", "abc123")], []⟩ "r" "feature-x" "main").1
        "r" "feature-x" "main").2.2 = true ∧
     (create_branch (create_branch ⟨[("main", "abc123")], []⟩ "r" "feature-x" "main").1
        "r" "feature-x" "main").1
       = (create_branch ⟨[("main", "abc123")], []⟩ "r" "feature-x" "main").1 ∧
     (create_branch (create_branch ⟨[("main", "abc123")], []⟩ "r" "feature-x" "main").1
        "r" "feature-x" "main").2.1 = [] ∧
     countRefCreates ((create_branch ⟨[("main", "abc123")], []⟩ "r" "feature-x" "main").2.1
        ++ (create_branch (create_branch ⟨[("main", "abc123")], []⟩ "r" "feature-x" "main").1
              "r" "feature-x" "main").2.1) ≤ 1) :=
  ⟨by decide, create_branch_idempotent ⟨[("main", "abc123")], []⟩ "r" "feature-x" "main"
    (by decide)⟩

/-- C4: when the base branch resolves to head sha `s` and the target branch
does not exist, `create_branch` creates exactly one new ref named
`branch_name` pointing at `s` and returns `True`. -/
theorem create_branch_creates_ref (st : Remote)
    (repo_name branch_name base_branch s : String)
    (hbase : get_git_ref st base_branch = some s)
    (htgt : get_git_ref st branch_name = none) :
    create_branch st repo_name branch_name base_branch
      = ({ st with refs := st.refs ++ [(branch_name, s)] },
         [Op.createRef branch_name s], true) := by
  simp [create_branch, create_branch_aux, hbase, htgt, create_git_ref]

/-- Witness for C4: with `main` at `abc123` and `feature-x` absent, the call
creates the ref `feature-x ↦ abc123` and succeeds. -/
theorem create_branch_creates_ref_witness :
    get_git_ref ⟨[("main", "abc123")], []⟩ "main" = some "abc123" ∧
    get_git_ref ⟨[("main", "abc123")], []⟩ "feature-x" = none ∧
    create_branch ⟨[("main", "abc123")], []⟩ "acme/widgets" "feature-x" "main"
      = (⟨[("main", "abc123"), ("feature-x", "abc123")], []⟩,
         [Op.createRef "feature-x" "abc123"], true) :=
  ⟨by decide, by decide, create_branch_creates_ref ⟨[("main", "abc123")], []⟩
    "acme/widgets" "feature-x" "main" "abc123" (by decide) (by decide)⟩

/-- C5: on success `upload_json_file` returns the locator
`"https://github.com/" ++ repo_name ++ "/blob/" ++ branch_name ++ "/" ++ file_path`,
a pure function of `repo_name`, `branch_name` and `file_path`; the result is
independent of the content and the commit message; and at the claim's
concrete inputs the locator is the expected string. -/
theorem upload_json_file_locator (st : Remote)
    (repo_name branch_name file_path json_content commit_message jc2 cm2 : String) :
    ((upload_json_file st repo_name branch_name file_path json_content commit_message).2.2
        = none ∨
     (upload_json_file st repo_name branch_name file_path json_content commit_message).2.2
        = some ("https://github.com/" ++ repo_name ++ "/blob/" ++ branch_name ++ "/"
                  ++ file_path)) ∧
    (upload_json_file st repo_name branch_name file_path json_content commit_message).2.2
      = (upload_json_file st repo_name branch_name file_path jc2 cm2).2.2 ∧
    (upload_json_file ⟨[("feature-x", "abc123")], []⟩ "acme/widgets" "feature-x"
        "config/settings.json" json_content commit_message).2.2
      = some "https://github.com/acme/widgets/blob/feature-x/config/settings.json" := by
  refine ⟨?_, ?_, ?_⟩
  · rw [upload_json_file_result]
    split
    · right; rfl
    · left; rfl
  · rw [upload_json_file_result, upload_json_file_result]
  · rw [upload_json_file_result]
    simp [get_contents, get_git_ref, file_url, List.find?]

/-- C6: `create_branch` never deletes or moves an existing ref and never
touches files: every ref resolvable before the call resolves to the same sha
afterwards, the file table is unchanged, and the ref table is either
unchanged or extended by exactly one new entry. -/
theorem create_branch_frame (st : Remote)
    (repo_name branch_name base_branch n s : String)
    (h : get_git_ref st n = some s) :
    get_git_ref (create_branch st repo_name branch_name base_branch).1 n = some s ∧
    (create_branch st repo_name branch_name base_branch).1.files = st.files ∧
    ((create_branch st repo_name branch_name base_branch).1.refs = st.refs ∨
     ∃ e, (create_branch st repo_name branch_name base_branch).1.refs
            = st.refs ++ [e]) := by
  unfold create_branch create_branch_aux
  cases hb : get_git_ref st base_branch with
  | none => simp [h]
  | some base_sha =>
    cases ht : get_git_ref st branch_name with
    | some sha => simp [hb, ht, h]
    | none =>
      have hcr : create_git_ref st branch_name base_sha
          = some { st with refs := st.refs ++ [(branch_name, base_sha)] } := by
        simp [create_git_ref, ht]
      refine ⟨?_, ?_, ?_⟩
      · simp only [hb, ht, hcr, Option.isNone_none, Bool.or_true]
        exact get_git_ref_append (branch_name, base_sha) h
      · simp [hb, ht, hcr]
      · simp only [hb, ht, hcr, Option.isNone_none, Bool.or_true]
        exact Or.inr ⟨(branch_name, base_sha), rfl⟩

/-- Witness for C6: creating `feature-x` from `main` leaves the pre-existing
ref `main ↦ abc123` resolvable and unmoved, files unchanged, and appends one
ref. -/
theorem create_branch_frame_witness :
    get_git_ref ⟨[("main", "abc123")], []⟩ "main" = some "abc123" ∧
    (get_git_ref (create_branch ⟨[("main", "abc123")], []⟩ "r" "feature-x" "main").1
        "main" = some "abc123" ∧
     (create_branch ⟨[("main", "abc123")], []⟩ "r" "feature-x" "main").1.files
        = (⟨[("main", "abc123")], []⟩ : Remote).files ∧
     ((create_branch ⟨[("main", "abc123")], []⟩ "r" "feature-x" "main").1.refs
        = (⟨[("main", "abc123")], []⟩ : Remote).refs ∨
      ∃ e, (create_branch ⟨[("main", "abc123")], []⟩ "r" "feature-x" "main").1.refs
        = (⟨[("main", "abc123")], []⟩ : Remote).refs ++ [e])) :=
  ⟨by decide, create_branch_frame ⟨[("main", "abc123")], []⟩ "r" "feature-x" "main"
    "main" "abc123" (by decide)⟩

/-- C7: when the base branch does not resolve, the orchestrator fails
outright: the state is unchanged (so no ref was created and no file was
created or updated), the mutation trace is empty, and the result is `None`. -/
theorem create_branch_and_upload_json_missing_base (st : Remote)
    (repo_name branch_name base_branch file_path json_content commit_message : String)
    (h : get_git_ref st base_branch = none) :
    create_branch_and_upload_json st repo_name branch_name base_branch file_path
        json_content commit_message
      = (st, [], none) := by
  simp [create_branch_and_upload_json, create_branch, create_branch_aux, h]

/-- Witness for C7: with no branch named `base`, the orchestrator returns the
unchanged state, an empty trace and `none`. -/
theorem create_branch_and_upload_json_missing_base_witness :
    get_git_ref ⟨[("main", "abc123")], []⟩ "base" = none ∧
    create_branch_and_upload_json ⟨[("main", "abc123")], []⟩ "acme/widgets"
        "feature-x" "base" "config/settings.json" "data" "msg"
      = (⟨[("main", "abc123")], []⟩, [], none) :=
  ⟨by decide, create_branch_and_upload_json_missing_base ⟨[("main", "abc123")], []⟩
    "acme/widgets" "feature-x" "base" "config/settings.json" "data" "msg" (by decide)⟩

/-- C8: `GitHubBranchManager.__init__` raises exactly when neither the
`token` parameter nor the `GITHUB_TOKEN` environment variable supplies a
non-empty credential (Python truthiness: `None` and `""` are both falsy).
The later operations (`create_branch`, `upload_json_file`,
`create_branch_and_upload_json`) are not parameterised by the credential at
all, so no per-call credential check exists. -/
theorem manager_init_requires_token (token env_github_token : Option String) :
    (∃ msg, manager_init token env_github_token = Except.error msg) ↔
      ((token = none ∨ token = some "") ∧
       (env_github_token = none ∨ env_github_token = some "")) := by
  cases token with
  | none =>
    cases env_github_token with
    | none => simp [manager_init, pyOr, truthy]
    | some e =>
      by_cases he : e = "" <;> simp [manager_init, pyOr, truthy, he]
  | some t =>
    by_cases ht : t = ""
    · cases env_github_token with
      | none => simp [manager_init, pyOr, truthy, ht]
      | some e =>
        by_cases he : e = "" <;> simp [manager_init, pyOr, truthy, ht, he]
    · simp [manager_init, pyOr, truthy, ht]

/-- C9: with the base branch resolving to sha `s`, any raised target-branch
lookup (modelled by the fault flag, covering failures other than absence) is
treated by the bare `except:` as "branch does not exist" and a ref creation
is attempted; the already-exists no-op (empty trace, `True` result) happens
exactly when the lookup returns normally, i.e. no fault and the ref
present. -/
theorem create_branch_bare_except (st : Remote)
    (repo_name branch_name base_branch s : String) (fault : Bool)
    (h : get_git_ref st base_branch = some s) :
    (fault = true →
      (create_branch_aux st repo_name branch_name base_branch fault).2.1
        = [Op.createRef branch_name s]) ∧
    ((create_branch_aux st repo_name branch_name base_branch fault).2.1 = [] ∧
       (create_branch_aux st repo_name branch_name base_branch fault).2.2 = true ↔
     fault = false ∧ (get_git_ref st branch_name).isSome = true) := by
  unfold create_branch_aux
  cases fault with
  | true =>
    cases hcg : create_git_ref st branch_name s with
    | some st' => simp [h, hcg]
    | none => simp [h, hcg]
  | false =>
    cases ht : get_git_ref st branch_name with
    | some sha => simp [h, ht]
    | none =>
      have hcr : create_git_ref st branch_name s
          = some { st with refs := st.refs ++ [(branch_name, s)] } := by
        simp [create_git_ref, ht]
      simp [h, ht, hcr]

/-- Witness for C9 at a state where `feature-x` already exists: a faulted
lookup still leads to an attempted ref creation, and the trace is not the
no-op trace. -/
theorem create_branch_bare_except_witness :
    get_git_ref ⟨[("main", "abc123"), ("feature-x", "abc123")], []⟩ "main"
      = some "abc123" ∧
    ((true = true →
      (create_branch_aux ⟨[("main", "abc123"), ("feature-x", "abc123")], []⟩
          "r" "feature-x" "main" true).2.1 = [Op.createRef "feature-x" "abc123"]) ∧
     ((create_branch_aux ⟨[("main", "abc123"), ("feature-x", "abc123")], []⟩
          "r" "feature-x" "main" true).2.1 = [] ∧
        (create_branch_aux ⟨[("main", "abc123"), ("feature-x", "abc123")], []⟩
          "r" "feature-x" "main" true).2.2 = true ↔
      true = false ∧
        (get_git_ref ⟨[("main", "abc123"), ("feature-x", "abc123")], []⟩
          "feature-x").isSome = true)) :=
  ⟨by decide, create_branch_bare_except
    ⟨[("main", "abc123"), ("feature-x", "abc123")], []⟩ "r" "feature-x" "main"
    "abc123" true (by decide)⟩

/-- C10: for every event whose `apiPath` is none of the four known paths,
`lambda_handler` returns `httpStatusCode` 200 with a JSON body carrying an
`error` message about the unknown path (the 500 code appears only in the
`except` branch for a raised exception). -/
theorem lambda_handler_unknown_path
    (update_rds_schedule get_rds_schedule list_rds_instances create_schedule :
      List (String × String) → String)
    (event : LambdaEvent)
    (h1 : event.apiPath ≠ "/update-rds-schedule")
    (h2 : event.apiPath ≠ "/get-rds-schedule")
    (h3 : event.apiPath ≠ "/list-rds-instances")
    (h4 : event.apiPath ≠ "/create-schedule") :
    lambda_handler update_rds_schedule get_rds_schedule list_rds_instances
        create_schedule event
      = { actionGroup := event.actionGroup
          apiPath := event.apiPath
          httpMethod := event.httpMethod.getD "POST"
          httpStatusCode := 200
          body := jsonErrorBody ("Unknown API path: " ++ event.apiPath) } := by
  simp [lambda_handler, h1, h2, h3, h4]

/-- Witness for C10 at `apiPath = "/nope"`: status 200 and the error body. -/
theorem lambda_handler_unknown_path_witness :
    (LambdaEvent.mk "ag" "/nope" none []).apiPath ≠ "/update-rds-schedule" ∧
    lambda_handler (fun _ => "") (fun _ => "") (fun _ => "") (fun _ => "")
        (LambdaEvent.mk "ag" "/nope" none [])
      = { actionGroup := "ag"
          apiPath := "/nope"
          httpMethod := "POST"
          httpStatusCode := 200
          body := jsonErrorBody ("Unknown API path: " ++ "/nope") } :=
  ⟨by decide, lambda_handler_unknown_path (fun _ => "") (fun _ => "") (fun _ => "")
    (fun _ => "") (LambdaEvent.mk "ag" "/nope" none [])
    (by decide) (by decide) (by decide) (by decide)⟩
